import Mathlib

/-!
Verification development for the arduino-tester repository.

The repository contains four sources:
* `arduino_control_leds.ino` — a serial sketch driving two LEDs (`Leds` below);
* a module sketch (three modules plus a TMP36 sensor) — `Modulos` below;
* `MeadowController.cs` — the HTTP facade (`Api` below);
* `MeadowCliente.cs` — the HTTP client wrapper (`Cliente` below).

Modelling conventions:
* Arduino `String` values are `List Char`; `String.trim`, `String.startsWith`,
  `String.substring` and `String.toInt` (i.e. `atol`) are embedded below.
* Side effects (serial output lines, `digitalWrite` calls, `delay` calls) are
  recorded as an event list `Ev`.  A `Serial.print …; Serial.println …`
  sequence that assembles one output line is recorded as a single `Ev.line`.
* C/C# floating-point arithmetic is embedded over `ℚ`; decimal literals such
  as `5.0/1023.0` are exact rationals.
* The embedded `int` values are unbounded `Int` (no fixed machine width is
  mandated by the sources).
-/

namespace Arduino

/-- The character class used by `String.trim` (C `isspace`). -/
def isWS (c : Char) : Bool :=
  c == ' ' || c == '\t' || c == '\n' || c == '\x0b' || c == '\x0c' || c == '\r'

/-- Left half of Arduino `String.trim`: drop leading whitespace. -/
def trimLeft (s : List Char) : List Char := s.dropWhile isWS

/-- Right half of Arduino `String.trim`: drop trailing whitespace. -/
def trimRight (s : List Char) : List Char := (s.reverse.dropWhile isWS).reverse

/-- Arduino `String.trim`: drop leading and trailing whitespace. -/
def trim (s : List Char) : List Char := trimRight (trimLeft s)

/-- Arduino `String.startsWith pat`: `startsWith pat s` holds when `pat` is a
literal prefix of `s`. -/
def startsWith : List Char → List Char → Bool
  | [], _ => true
  | _ :: _, [] => false
  | p :: ps, c :: cs => p == c && startsWith ps cs

/-- Digit-accumulating loop of C `atol`: consume decimal digits, stop at the
first non-digit. -/
def parseDigits : Int → List Char → Int
  | acc, [] => acc
  | acc, c :: cs =>
      if c.isDigit then parseDigits (acc * 10 + ((c.toNat : Int) - 48)) cs else acc

/-- Arduino `String.toInt` (C `atol`): skip leading whitespace, read an
optional sign, then decimal digits; `0` when no digits are present. -/
def toInt (s : List Char) : Int :=
  match s.dropWhile isWS with
  | '-' :: rest => - parseDigits 0 rest
  | '+' :: rest => parseDigits 0 rest
  | t => parseDigits 0 t

/-- `noWS s` holds when `s` contains no whitespace character; the decimal
representation of an integer always satisfies it. -/
def noWS (s : List Char) : Bool := s.all fun c => ! isWS c

/-- Effects a sketch emits: a completed serial output line, the temperature
output line (carrying the computed value), a `digitalWrite`, or a `delay`. -/
inductive Ev where
  | line (s : String)
  | tempLine (t : ℚ)
  | write (pin : Nat) (level : Bool)
  | delayMs (ms : Int)
deriving DecidableEq

/-- `digitalWrite` level `HIGH`. -/
def HIGH : Bool := true

/-- `digitalWrite` level `LOW`. -/
def LOW : Bool := false

/-- The two globals both sketches thread through `loop`:
`String inputBuffer` and `bool commandComplete`. -/
structure LoopState where
  inputBuffer : List Char
  commandComplete : Bool
deriving DecidableEq

/-- Body of the `while (Serial.available() > 0)` drain for one received
character: a newline marks the command complete, any other character is
appended to the buffer. -/
def drainChar (st : LoopState) (c : Char) : LoopState :=
  if c == '\n' then LoopState.mk st.inputBuffer true
  else LoopState.mk (st.inputBuffer ++ [c]) st.commandComplete

/-- One iteration of `loop`: drain every available character, then, if a
complete command was seen, dispatch the buffer (returned as the second
component, the argument passed to `procesarComando`) and reset the state. -/
def loopIter (st : LoopState) (avail : List Char) : LoopState × Option (List Char) :=
  let st2 := avail.foldl drainChar st
  if st2.commandComplete then (LoopState.mk [] false, some st2.inputBuffer)
  else (st2, none)

/-- Classifier for events that are serial output lines (as opposed to pin
writes or delays). -/
def Ev.isSerialLine : Ev → Bool
  | Ev.line _ => true
  | Ev.tempLine _ => true
  | Ev.write _ _ => false
  | Ev.delayMs _ => false

end Arduino


namespace Leds

open Arduino

/-- `#define NUM_LEDS 2` in `arduino_control_leds.ino`. -/
def NUM_LEDS : Nat := 2

/-- `const int pinLeds[] = \x7b12, 8\x7d`. -/
def pinLeds : List Nat := [12, 8]

/-- `encenderLed(indice)`: `digitalWrite(pinLeds[indice], HIGH)`. -/
def encenderLed (indice : Nat) : List Ev :=
  [Ev.write (pinLeds.getD indice 0) HIGH]

/-- `apagarLed(indice)`: `digitalWrite(pinLeds[indice], LOW)`. -/
def apagarLed (indice : Nat) : List Ev :=
  [Ev.write (pinLeds.getD indice 0) LOW]

/-- `procesarComando(String comando)` of the LED sketch: trim, then dispatch
on the prefixes `ON:`, `OFF:`, `WAIT:`; anything else is echoed as an
unrecognized command. -/
def procesarComando (comandoRaw : List Char) : List Ev :=
  let comando := trim comandoRaw
  if startsWith ['O', 'N', ':'] comando then
    let led := toInt (comando.drop 3)
    if 1 ≤ led ∧ led ≤ (NUM_LEDS : Int) then
      encenderLed (led - 1).toNat ++ [Ev.line ("LED " ++ toString led ++ " encendido")]
    else
      [Ev.line "Error: Número de LED inválido"]
  else if startsWith ['O', 'F', 'F', ':'] comando then
    let led := toInt (comando.drop 4)
    if 1 ≤ led ∧ led ≤ (NUM_LEDS : Int) then
      apagarLed (led - 1).toNat ++ [Ev.line ("LED " ++ toString led ++ " apagado")]
    else
      [Ev.line "Error: Número de LED inválido"]
  else if startsWith ['W', 'A', 'I', 'T', ':'] comando then
    let tiempoEspera := toInt (comando.drop 5)
    [Ev.line ("Esperando " ++ toString tiempoEspera ++ " ms"),
     Ev.delayMs tiempoEspera,
     Ev.line "DONE waiting"]
  else
    [Ev.line ("Comando no reconocido: " ++ String.mk comando)]

end Leds

namespace Modulos

open Arduino

/-- `#define NUM_MODULOS 3` in the module sketch. -/
def NUM_MODULOS : Nat := 3

/-- `const int pinModulos[] = \x7b12, 8, 7\x7d`. -/
def pinModulos : List Nat := [12, 8, 7]

/-- `encenderModulo(indice)`: `digitalWrite(pinModulos[indice], LOW)` and
`estadoModulos[indice] = true`. -/
def encenderModulo (estado : List Bool) (indice : Nat) : List Bool × List Ev :=
  (estado.set indice true, [Ev.write (pinModulos.getD indice 0) LOW])

/-- `apagarModulo(indice)`: `digitalWrite(pinModulos[indice], HIGH)` and
`estadoModulos[indice] = false`. -/
def apagarModulo (estado : List Bool) (indice : Nat) : List Bool × List Ev :=
  (estado.set indice false, [Ev.write (pinModulos.getD indice 0) HIGH])

/-- `mostrarEstadoModulos()`: a header line, then one line per module with
its ON/OFF state. -/
def mostrarEstadoModulos (estado : List Bool) : List Ev :=
  Ev.line "Estado de los módulos:" ::
    (List.range NUM_MODULOS).map fun i =>
      Ev.line ("Módulo " ++ toString (i + 1) ++ ": " ++
        (if estado.getD i false then "ON" else "OFF"))

/-- `leerTemperatura()`: the analog sample is a parameter (`analogRead`'s
value); voltage and Celsius follow the source formulas over `ℚ`. -/
def leerTemperatura (valorSensor : Int) : ℚ × List Ev :=
  let voltaje : ℚ := (valorSensor : ℚ) * ((5 : ℚ) / 1023)
  let temperatura : ℚ := (voltaje - 0.5) * 100
  (temperatura, [Ev.tempLine temperatura])

/-- `procesarComando(String comando)` of the module sketch: trim, then
dispatch on `ON:`, `OFF:`, `STATUS`, `TEMP`, `WAIT:`; anything else is echoed
as an unrecognized command.  The analog sample feeding `TEMP` is a
parameter. -/
def procesarComando (valorSensor : Int) (estado : List Bool)
    (comandoRaw : List Char) : List Bool × List Ev :=
  let comando := trim comandoRaw
  if startsWith ['O', 'N', ':'] comando then
    let modulo := toInt (comando.drop 3)
    if 1 ≤ modulo ∧ modulo ≤ (NUM_MODULOS : Int) then
      let r := encenderModulo estado (modulo - 1).toNat
      (r.1, r.2 ++ [Ev.line ("Módulo " ++ toString modulo ++ " encendido")])
    else
      (estado, [Ev.line "Error: Número de módulo inválido"])
  else if startsWith ['O', 'F', 'F', ':'] comando then
    let modulo := toInt (comando.drop 4)
    if 1 ≤ modulo ∧ modulo ≤ (NUM_MODULOS : Int) then
      let r := apagarModulo estado (modulo - 1).toNat
      (r.1, r.2 ++ [Ev.line ("Módulo " ++ toString modulo ++ " apagado")])
    else
      (estado, [Ev.line "Error: Número de módulo inválido"])
  else if comando = ['S', 'T', 'A', 'T', 'U', 'S'] then
    (estado, mostrarEstadoModulos estado)
  else if comando = ['T', 'E', 'M', 'P'] then
    (estado, (leerTemperatura valorSensor).2)
  else if startsWith ['W', 'A', 'I', 'T', ':'] comando then
    let tiempoEspera := toInt (comando.drop 5)
    (estado, [Ev.line ("Esperando " ++ toString tiempoEspera ++ " ms"),
              Ev.delayMs tiempoEspera])
  else
    (estado, [Ev.line ("Comando no reconocido: " ++ String.mk comando)])

end Modulos

namespace Api

/-- Outcome of a controller action: `Ok(body)` or `BadRequest(message)`. -/
inductive ActionResult (α : Type) where
  | ok (body : α)
  | badRequest (msg : String)
deriving DecidableEq

/-- Body of the `GET temperature` reply (`Timestamp` — a wall-clock read —
is not modelled; no claim concerns it). -/
structure TemperatureBody where
  Temperature : ℚ
  Event : Option String
deriving DecidableEq

/-- `GetTemperature`: converts the raw ADC sample with the 3.3 V / 10-bit
reference and the TMP36 transform; always `Ok`. -/
def GetTemperature (sample : Int) (eventName : Option String) :
    ActionResult TemperatureBody :=
  let voltage : ℚ := (sample : ℚ) * ((3.3 : ℚ) / 1023)
  let temperatureCelsius : ℚ := (voltage - 0.5) * 100
  ActionResult.ok (TemperatureBody.mk temperatureCelsius eventName)

/-- `TurnModuleOn(id)`: validate `id` against the port array bounds, then set
`_modules[id-1].State = true`.  Returns the new port states and the action
result. -/
def TurnModuleOn (modules : List Bool) (id : Int) :
    List Bool × ActionResult String :=
  if id < 1 ∨ id > (modules.length : Int) then
    (modules, ActionResult.badRequest ("Módulo inválido: " ++ toString id))
  else
    (modules.set (id - 1).toNat true,
     ActionResult.ok ("Módulo " ++ toString id ++ " encendido"))

/-- `TurnModuleOff(id)`: validate, then set `_modules[id-1].State = false`. -/
def TurnModuleOff (modules : List Bool) (id : Int) :
    List Bool × ActionResult String :=
  if id < 1 ∨ id > (modules.length : Int) then
    (modules, ActionResult.badRequest ("Módulo inválido: " ++ toString id))
  else
    (modules.set (id - 1).toNat false,
     ActionResult.ok ("Módulo " ++ toString id ++ " apagado"))

/-- `Wait(milliseconds)`: non-positive values are rejected with 400 and no
delay is performed; otherwise `Task.Delay(milliseconds)` runs before `Ok`.
The second component records the performed delay (`none` = no delay). -/
def Wait (milliseconds : Int) : ActionResult String × Option Int :=
  if milliseconds ≤ 0 then
    (ActionResult.badRequest "El tiempo de espera debe ser mayor que 0", none)
  else
    (ActionResult.ok "DONE waiting", some milliseconds)

/-- The `ModuleStatus` array built by `GetModulesStatus`'s loop:
`status[i] = _modules[i].State`. -/
def statusBody (modules : List Bool) : List Bool :=
  (List.range modules.length).map fun i => modules.getD i false

/-- `GetModulesStatus`: always `Ok` with the `ModuleStatus` array. -/
def GetModulesStatus (modules : List Bool) : ActionResult (List Bool) :=
  ActionResult.ok (statusBody modules)

end Api

namespace Cliente

/-- Outcome of one wrapped `HttpClient` invocation, as observed inside the
`try` block: either the call (or reading its content) threw, or it produced a
response with a success flag and a content string. -/
inductive HttpOutcome where
  | exn (msg : String)
  | response (isSuccessStatusCode : Bool) (content : String)
deriving DecidableEq

/-- An outcome that the catch/else paths of every client method treat as a
failure: a thrown exception or a non-success status code. -/
def httpFailed : HttpOutcome → Bool
  | HttpOutcome.exn _ => true
  | HttpOutcome.response s _ => ! s

/-- `EncenderModulo(numeroModulo)`: pre-validates the module number locally,
then posts `module/n/on`.  The second component records whether an HTTP
request was issued. -/
def EncenderModulo (numeroModulo : Int) (outcome : HttpOutcome) : Bool × Bool :=
  if numeroModulo < 1 ∨ numeroModulo > 3 then
    (false, false)
  else
    match outcome with
    | HttpOutcome.exn _ => (false, true)
    | HttpOutcome.response true _ => (true, true)
    | HttpOutcome.response false _ => (false, true)

/-- `ApagarModulo(numeroModulo)`: same shape as `EncenderModulo`, posting
`module/n/off`. -/
def ApagarModulo (numeroModulo : Int) (outcome : HttpOutcome) : Bool × Bool :=
  if numeroModulo < 1 ∨ numeroModulo > 3 then
    (false, false)
  else
    match outcome with
    | HttpOutcome.exn _ => (false, true)
    | HttpOutcome.response true _ => (true, true)
    | HttpOutcome.response false _ => (false, true)

/-- `Esperar(milisegundos)`: rejects non-positive waits locally, then posts
`wait?milliseconds=…`.  Second component: whether a request was issued. -/
def Esperar (milisegundos : Int) (outcome : HttpOutcome) : Bool × Bool :=
  if milisegundos ≤ 0 then
    (false, false)
  else
    match outcome with
    | HttpOutcome.exn _ => (false, true)
    | HttpOutcome.response true _ => (true, true)
    | HttpOutcome.response false _ => (false, true)

/-- Shape deserialized by `LeerTemperatura` (`TemperatureResponse`). -/
structure TemperatureResponse where
  Temperature : ℚ
deriving DecidableEq

/-- Shape deserialized by `ObtenerEstadoModulos` (`ModuleStatusResponse`). -/
structure ModuleStatusResponse where
  ModuleStatus : List Bool
deriving DecidableEq

/-- `LeerTemperatura`: on a success response, deserialize the content (the
deserializer is a parameter; `Except.error` models a thrown
`JsonException`, caught by the method's `catch`); every failure path returns
`null` (`none`). -/
def LeerTemperatura (parse : String → Except String TemperatureResponse)
    (outcome : HttpOutcome) : Option ℚ :=
  match outcome with
  | HttpOutcome.exn _ => none
  | HttpOutcome.response false _ => none
  | HttpOutcome.response true content =>
      match parse content with
      | Except.error _ => none
      | Except.ok d => some d.Temperature

/-- `ObtenerEstadoModulos`: on a success response, deserialize and build the
dictionary mapping `i+1` to `ModuleStatus[i]`; every failure path returns
`null` (`none`). -/
def ObtenerEstadoModulos (parse : String → Except String ModuleStatusResponse)
    (outcome : HttpOutcome) : Option (List (Int × Bool)) :=
  match outcome with
  | HttpOutcome.exn _ => none
  | HttpOutcome.response false _ => none
  | HttpOutcome.response true content =>
      match parse content with
      | Except.error _ => none
      | Except.ok d =>
          some ((List.range d.ModuleStatus.length).map fun i =>
            (Int.ofNat i + 1, d.ModuleStatus.getD i false))

end Cliente

namespace Arduino

theorem dropWhile_isWS_eq_self (l : List Char) (h : ∀ c ∈ l, isWS c = false) :
    l.dropWhile isWS = l := by
  cases l with
  | nil => rfl
  | cons a l =>
      rw [List.dropWhile_cons, h a (List.mem_cons_self a l)]
      simp

theorem trimRight_cons (c : Char) (s : List Char) (h : isWS c = false) :
    trimRight (c :: s) = c :: trimRight s := by
  unfold trimRight
  rw [List.reverse_cons, List.dropWhile_append]
  by_cases he : (s.reverse.dropWhile isWS).isEmpty
  · rw [if_pos he]
    rw [List.isEmpty_iff] at he
    rw [he]
    simp [List.dropWhile_cons, h]
  · rw [if_neg he]
    simp

theorem trimRight_eq_self (s : List Char) (h : noWS s = true) :
    trimRight s = s := by
  unfold trimRight
  rw [dropWhile_isWS_eq_self]
  · exact s.reverse_reverse
  · intro c hc
    rw [List.mem_reverse] at hc
    have := (List.all_eq_true.mp h) c hc
    simpa using this

theorem trim_ON (s : List Char) :
    trim ('O' :: 'N' :: ':' :: s) = 'O' :: 'N' :: ':' :: trimRight s := by
  have h1 : trimLeft ('O' :: 'N' :: ':' :: s) = 'O' :: 'N' :: ':' :: s := by
    unfold trimLeft
    rw [List.dropWhile_cons]
    simp [isWS]
  unfold trim
  rw [h1, trimRight_cons, trimRight_cons, trimRight_cons] <;> rfl

theorem trim_OFF (s : List Char) :
    trim ('O' :: 'F' :: 'F' :: ':' :: s) = 'O' :: 'F' :: 'F' :: ':' :: trimRight s := by
  have h1 : trimLeft ('O' :: 'F' :: 'F' :: ':' :: s) = 'O' :: 'F' :: 'F' :: ':' :: s := by
    unfold trimLeft
    rw [List.dropWhile_cons]
    simp [isWS]
  unfold trim
  rw [h1, trimRight_cons, trimRight_cons, trimRight_cons, trimRight_cons] <;> rfl

theorem trim_WAIT (s : List Char) :
    trim ('W' :: 'A' :: 'I' :: 'T' :: ':' :: s) =
      'W' :: 'A' :: 'I' :: 'T' :: ':' :: trimRight s := by
  have h1 : trimLeft ('W' :: 'A' :: 'I' :: 'T' :: ':' :: s) =
      'W' :: 'A' :: 'I' :: 'T' :: ':' :: s := by
    unfold trimLeft
    rw [List.dropWhile_cons]
    simp [isWS]
  unfold trim
  rw [h1, trimRight_cons, trimRight_cons, trimRight_cons, trimRight_cons,
    trimRight_cons] <;> rfl

end Arduino

section DispatchLemmas

open Arduino

theorem Modulos.procesar_ON_eq (valorSensor : Int) (estado : List Bool)
    (s : List Char) (h : noWS s = true) :
    Modulos.procesarComando valorSensor estado ('O' :: 'N' :: ':' :: s) =
      if 1 ≤ toInt s ∧ toInt s ≤ 3 then
        (estado.set (toInt s - 1).toNat true,
          [Ev.write (Modulos.pinModulos.getD (toInt s - 1).toNat 0) LOW,
           Ev.line ("Módulo " ++ toString (toInt s) ++ " encendido")])
      else (estado, [Ev.line "Error: Número de módulo inválido"]) := by
  have htrim : trim ('O' :: 'N' :: ':' :: s) = 'O' :: 'N' :: ':' :: s := by
    rw [trim_ON, trimRight_eq_self s h]
  unfold Modulos.procesarComando
  rw [htrim]
  rfl

theorem Modulos.procesar_OFF_eq (valorSensor : Int) (estado : List Bool)
    (s : List Char) (h : noWS s = true) :
    Modulos.procesarComando valorSensor estado ('O' :: 'F' :: 'F' :: ':' :: s) =
      if 1 ≤ toInt s ∧ toInt s ≤ 3 then
        (estado.set (toInt s - 1).toNat false,
          [Ev.write (Modulos.pinModulos.getD (toInt s - 1).toNat 0) HIGH,
           Ev.line ("Módulo " ++ toString (toInt s) ++ " apagado")])
      else (estado, [Ev.line "Error: Número de módulo inválido"]) := by
  have htrim : trim ('O' :: 'F' :: 'F' :: ':' :: s) = 'O' :: 'F' :: 'F' :: ':' :: s := by
    rw [trim_OFF, trimRight_eq_self s h]
  unfold Modulos.procesarComando
  rw [htrim]
  rfl

theorem Modulos.procesar_WAIT_eq (valorSensor : Int) (estado : List Bool)
    (s : List Char) (h : noWS s = true) :
    Modulos.procesarComando valorSensor estado ('W' :: 'A' :: 'I' :: 'T' :: ':' :: s) =
      (estado, [Ev.line ("Esperando " ++ toString (toInt s) ++ " ms"),
                Ev.delayMs (toInt s)]) := by
  have htrim : trim ('W' :: 'A' :: 'I' :: 'T' :: ':' :: s) =
      'W' :: 'A' :: 'I' :: 'T' :: ':' :: s := by
    rw [trim_WAIT, trimRight_eq_self s h]
  unfold Modulos.procesarComando
  rw [htrim]
  rfl

theorem Leds.procesarLeds_ON_eq (s : List Char) (h : noWS s = true) :
    Leds.procesarComando ('O' :: 'N' :: ':' :: s) =
      if 1 ≤ toInt s ∧ toInt s ≤ 2 then
        [Ev.write (Leds.pinLeds.getD (toInt s - 1).toNat 0) HIGH,
         Ev.line ("LED " ++ toString (toInt s) ++ " encendido")]
      else [Ev.line "Error: Número de LED inválido"] := by
  have htrim : trim ('O' :: 'N' :: ':' :: s) = 'O' :: 'N' :: ':' :: s := by
    rw [trim_ON, trimRight_eq_self s h]
  unfold Leds.procesarComando
  rw [htrim]
  rfl

theorem Leds.procesarLeds_OFF_eq (s : List Char) (h : noWS s = true) :
    Leds.procesarComando ('O' :: 'F' :: 'F' :: ':' :: s) =
      if 1 ≤ toInt s ∧ toInt s ≤ 2 then
        [Ev.write (Leds.pinLeds.getD (toInt s - 1).toNat 0) LOW,
         Ev.line ("LED " ++ toString (toInt s) ++ " apagado")]
      else [Ev.line "Error: Número de LED inválido"] := by
  have htrim : trim ('O' :: 'F' :: 'F' :: ':' :: s) = 'O' :: 'F' :: 'F' :: ':' :: s := by
    rw [trim_OFF, trimRight_eq_self s h]
  unfold Leds.procesarComando
  rw [htrim]
  rfl

theorem Leds.procesarLeds_WAIT_eq (s : List Char) (h : noWS s = true) :
    Leds.procesarComando ('W' :: 'A' :: 'I' :: 'T' :: ':' :: s) =
      [Ev.line ("Esperando " ++ toString (toInt s) ++ " ms"),
       Ev.delayMs (toInt s),
       Ev.line "DONE waiting"] := by
  have htrim : trim ('W' :: 'A' :: 'I' :: 'T' :: ':' :: s) =
      'W' :: 'A' :: 'I' :: 'T' :: ':' :: s := by
    rw [trim_WAIT, trimRight_eq_self s h]
  unfold Leds.procesarComando
  rw [htrim]
  rfl

theorem Modulos.procesar_STATUS_eq (valorSensor : Int) (estado : List Bool) :
    Modulos.procesarComando valorSensor estado ['S', 'T', 'A', 'T', 'U', 'S'] =
      (estado, Modulos.mostrarEstadoModulos estado) := rfl

theorem Modulos.mostrar_eq (a b c : Bool) :
    Modulos.mostrarEstadoModulos [a, b, c] =
      [Ev.line "Estado de los módulos:",
       Ev.line ("Módulo 1: " ++ (if a then "ON" else "OFF")),
       Ev.line ("Módulo 2: " ++ (if b then "ON" else "OFF")),
       Ev.line ("Módulo 3: " ++ (if c then "ON" else "OFF"))] := rfl

end DispatchLemmas

section LoopLemmas

open Arduino

theorem foldl_drainChar_no_newline (xs : List Char) :
    ∀ (buf : List Char) (b : Bool), '\n' ∉ xs →
      xs.foldl drainChar (LoopState.mk buf b) = LoopState.mk (buf ++ xs) b := by
  induction xs with
  | nil => intro buf b _; simp
  | cons c cs ih =>
      intro buf b h
      have hc : ¬ c = '\n' := fun hcc => h (hcc ▸ List.mem_cons_self c cs)
      have hcs : '\n' ∉ cs := fun hm => h (List.mem_cons_of_mem c hm)
      rw [List.foldl_cons]
      have hd : drainChar (LoopState.mk buf b) c = LoopState.mk (buf ++ [c]) b := by
        unfold drainChar
        simp [hc]
      rw [hd, ih (buf ++ [c]) b hcs]
      simp

end LoopLemmas

section Claims

open Arduino

/-- C1 (counterexample): the claim fails on the code.  When the two
newline-terminated lines `"A\n"` and `"B\n"` both arrive before a dispatch
cycle runs, a single dispatch occurs and the buffer passed to
`procesarComando` is the concatenation `"AB"` — it contains the character
`'B'`, received after the first newline terminator, and is not the single
first line `"A"`. -/
theorem c1_buffer_counterexample :
    loopIter (LoopState.mk [] false) ['A', '\n', 'B', '\n'] =
      (LoopState.mk [] false, some ['A', 'B']) ∧
    some (['A', 'B'] : List Char) ≠ some ['A'] ∧
    'B' ∈ (['A', 'B'] : List Char) := by
  refine ⟨by decide, by decide, by decide⟩

/-- C1 (amended): the buffer invariant holds for every drain cycle whose
available input contains at most one newline: if the characters drained
since the previous dispatch are `xs ++ ['\n']` with no newline in `xs`, then
`procesarComando` is invoked with exactly the pending buffer followed by
`xs`, and the buffer and completion flag are cleared afterwards; a drain
with no newline dispatches nothing and only extends the buffer.  (When two
newline-terminated lines arrive within one drain, the code instead
concatenates them into a single dispatched buffer.) -/
theorem c1_buffer_invariant (buf xs : List Char) (h : '\n' ∉ xs) :
    loopIter (LoopState.mk buf false) (xs ++ ['\n']) =
      (LoopState.mk [] false, some (buf ++ xs)) ∧
    loopIter (LoopState.mk buf false) xs =
      (LoopState.mk (buf ++ xs) false, none) := by
  constructor
  · unfold loopIter
    rw [List.foldl_append, foldl_drainChar_no_newline xs buf false h]
    have hd : drainChar (LoopState.mk (buf ++ xs) false) '\n' =
        LoopState.mk (buf ++ xs) true := by
      unfold drainChar
      simp
    simp [hd]
  · unfold loopIter
    rw [foldl_drainChar_no_newline xs buf false h]
    simp

/-- C1 (witness): a concrete run of the amended invariant — draining
`"ON:1\n"` from an empty buffer dispatches exactly `"ON:1"` and clears the
state. -/
theorem c1_buffer_invariant_witness :
    loopIter (LoopState.mk [] false) (['O', 'N', ':', '1'] ++ ['\n']) =
      (LoopState.mk [] false, some ([] ++ ['O', 'N', ':', '1'])) :=
  (c1_buffer_invariant [] ['O', 'N', ':', '1'] (by decide)).1

/-- C2 (counterexample): the claim fails on the module sketch.  Processing
`WAIT:5` there emits the progress line and performs the delay but emits no
completion line: exactly one serial output line is produced, not two. -/
theorem c2_wait_counterexample :
    (Modulos.procesarComando 0 [false, false, false]
        ['W', 'A', 'I', 'T', ':', '5']).2 =
      [Ev.line "Esperando 5 ms", Ev.delayMs 5] ∧
    ((Modulos.procesarComando 0 [false, false, false]
        ['W', 'A', 'I', 'T', ':', '5']).2.countP Ev.isSerialLine) = 1 ∧
    ((Modulos.procesarComando 0 [false, false, false]
        ['W', 'A', 'I', 'T', ':', '5']).2.countP Ev.isSerialLine) ≠ 2 := by
  refine ⟨by decide, by decide, by decide⟩

/-- C2 (amended): for every integer n, processing `WAIT:n` in the LED sketch
emits the progress line, the n-millisecond delay, and then the completion
line `DONE waiting`; the module sketch emits only the progress line followed
by the delay, with no completion line.  Neither sketch changes module
state. -/
theorem c2_wait_lines (s : List Char) (n sample : Int) (estado : List Bool)
    (hws : noWS s = true) (hn : toInt s = n) :
    Leds.procesarComando ('W' :: 'A' :: 'I' :: 'T' :: ':' :: s) =
      [Ev.line ("Esperando " ++ toString n ++ " ms"), Ev.delayMs n,
       Ev.line "DONE waiting"] ∧
    (Modulos.procesarComando sample estado
        ('W' :: 'A' :: 'I' :: 'T' :: ':' :: s)).2 =
      [Ev.line ("Esperando " ++ toString n ++ " ms"), Ev.delayMs n] ∧
    (Modulos.procesarComando sample estado
        ('W' :: 'A' :: 'I' :: 'T' :: ':' :: s)).1 = estado := by
  subst hn
  refine ⟨Leds.procesarLeds_WAIT_eq s hws, ?_, ?_⟩
  · rw [Modulos.procesar_WAIT_eq sample estado s hws]
  · rw [Modulos.procesar_WAIT_eq sample estado s hws]

/-- C2 (witness): a concrete run of the amended statement at `WAIT:5`. -/
theorem c2_wait_lines_witness :
    Leds.procesarComando ('W' :: 'A' :: 'I' :: 'T' :: ':' :: ['5']) =
      [Ev.line ("Esperando " ++ toString (5 : Int) ++ " ms"), Ev.delayMs 5,
       Ev.line "DONE waiting"] :=
  (c2_wait_lines ['5'] 5 0 [] (by decide) (by decide)).1

/-- C5: the HTTP `Wait` handler rejects every non-positive `milliseconds`
with a 400 `BadRequest` and performs no delay, while the serial sketches
accept `WAIT:0` (it is processed by the `WAIT:` branch, not rejected as an
error) and merely perform a zero-length delay, the module sketch emitting
only the progress line and the LED sketch also the completion line. -/
theorem c5_wait_nonpositive (m sample : Int) (estado : List Bool)
    (hm : m ≤ 0) :
    Api.Wait m =
      (Api.ActionResult.badRequest "El tiempo de espera debe ser mayor que 0",
       none) ∧
    Modulos.procesarComando sample estado ['W', 'A', 'I', 'T', ':', '0'] =
      (estado, [Ev.line "Esperando 0 ms", Ev.delayMs 0]) ∧
    Leds.procesarComando ['W', 'A', 'I', 'T', ':', '0'] =
      [Ev.line "Esperando 0 ms", Ev.delayMs 0, Ev.line "DONE waiting"] := by
  refine ⟨?_, ?_, ?_⟩
  · unfold Api.Wait
    rw [if_pos hm]
  · rfl
  · rfl

/-- C5 (witness): the concrete instance at `milliseconds = 0`. -/
theorem c5_wait_nonpositive_witness :
    Api.Wait 0 =
      (Api.ActionResult.badRequest "El tiempo de espera debe ser mayor que 0",
       none) :=
  (c5_wait_nonpositive 0 0 [] (by decide)).1

/-- C10: the client pre-validates the module id locally — for every integer
n outside [1, 3] and every outcome the network could have produced,
`EncenderModulo` and `ApagarModulo` return `false` and issue no HTTP request
(the second component records whether a request was issued). -/
theorem c10_client_prevalidation (n : Int) (o : Cliente.HttpOutcome)
    (hn : n < 1 ∨ 3 < n) :
    Cliente.EncenderModulo n o = (false, false) ∧
    Cliente.ApagarModulo n o = (false, false) := by
  have hcond : n < 1 ∨ n > 3 := hn
  constructor
  · unfold Cliente.EncenderModulo
    rw [if_pos hcond]
  · unfold Cliente.ApagarModulo
    rw [if_pos hcond]

/-- C10 (witness): the concrete instance at n = 0 with an error response
outcome. -/
theorem c10_client_prevalidation_witness :
    Cliente.EncenderModulo 0 (Cliente.HttpOutcome.response true "x") =
      (false, false) :=
  (c10_client_prevalidation 0 (Cliente.HttpOutcome.response true "x")
    (by decide)).1

/-- C3: for every integer n outside [1, NUM_MODULOS] (here 3), processing
`ON:n` or `OFF:n` in the module sketch leaves `estadoModulos` unchanged,
writes no pin, and replies with the error line, and the HTTP handlers
`TurnModuleOn(n)`/`TurnModuleOff(n)` leave every port unchanged and return
`BadRequest`.  The textual argument `s` ranges over every whitespace-free
spelling of n (in particular its decimal representation). -/
theorem c3_out_of_range (s : List Char) (n sample : Int) (estado st : List Bool)
    (hws : noWS s = true) (hn : toInt s = n) (hr : n < 1 ∨ 3 < n)
    (hlen : st.length = 3) :
    Modulos.procesarComando sample estado ('O' :: 'N' :: ':' :: s) =
      (estado, [Ev.line "Error: Número de módulo inválido"]) ∧
    Modulos.procesarComando sample estado ('O' :: 'F' :: 'F' :: ':' :: s) =
      (estado, [Ev.line "Error: Número de módulo inválido"]) ∧
    Api.TurnModuleOn st n =
      (st, Api.ActionResult.badRequest ("Módulo inválido: " ++ toString n)) ∧
    Api.TurnModuleOff st n =
      (st, Api.ActionResult.badRequest ("Módulo inválido: " ++ toString n)) := by
  subst hn
  have hneg : ¬ (1 ≤ toInt s ∧ toInt s ≤ 3) := by omega
  have hc : toInt s < 1 ∨ toInt s > (st.length : Int) := by rw [hlen]; omega
  refine ⟨?_, ?_, ?_, ?_⟩
  · rw [Modulos.procesar_ON_eq sample estado s hws, if_neg hneg]
  · rw [Modulos.procesar_OFF_eq sample estado s hws, if_neg hneg]
  · unfold Api.TurnModuleOn
    rw [if_pos hc]
  · unfold Api.TurnModuleOff
    rw [if_pos hc]

/-- C3 (witness): the concrete instance n = 4 against three modules. -/
theorem c3_out_of_range_witness :
    Modulos.procesarComando 0 [false, false, false]
        ('O' :: 'N' :: ':' :: ['4']) =
      ([false, false, false], [Ev.line "Error: Número de módulo inválido"]) :=
  (c3_out_of_range ['4'] 4 0 [false, false, false] [false, false, false]
    (by decide) (by decide) (by decide) (by decide)).1

/-- C4: for every n in [1, 3], processing `ON:n` and then `STATUS` in the
module sketch reports module n as ON (the status output's line for module n,
at position n after the header, reads `Módulo n: ON`), and `OFF:n` followed
by `STATUS` reports it OFF; on the HTTP facade, `GetModulesStatus` returns
`Ok` of the `ModuleStatus` array, whose element n-1 is `true` after
`TurnModuleOn(n)` and `false` after `TurnModuleOff(n)`. -/
theorem c4_on_off_then_status (s : List Char) (n sample : Int)
    (estado st : List Bool) (hws : noWS s = true) (hn : toInt s = n)
    (h1 : 1 ≤ n) (h2 : n ≤ 3) (hel : estado.length = 3)
    (hsl : st.length = 3) :
    (Modulos.procesarComando sample
        (Modulos.procesarComando sample estado ('O' :: 'N' :: ':' :: s)).1
        ['S', 'T', 'A', 'T', 'U', 'S']).2.getD n.toNat (Ev.line "") =
      Ev.line ("Módulo " ++ toString n ++ ": ON") ∧
    (Modulos.procesarComando sample
        (Modulos.procesarComando sample estado
          ('O' :: 'F' :: 'F' :: ':' :: s)).1
        ['S', 'T', 'A', 'T', 'U', 'S']).2.getD n.toNat (Ev.line "") =
      Ev.line ("Módulo " ++ toString n ++ ": OFF") ∧
    (∀ ms : List Bool,
      Api.GetModulesStatus ms = Api.ActionResult.ok (Api.statusBody ms)) ∧
    (Api.statusBody (Api.TurnModuleOn st n).1).getD (n - 1).toNat false =
      true ∧
    (Api.statusBody (Api.TurnModuleOff st n).1).getD (n - 1).toNat false =
      false := by
  obtain ⟨a, b, c, rfl⟩ := List.length_eq_three.mp hel
  obtain ⟨x, y, z, rfl⟩ := List.length_eq_three.mp hsl
  refine ⟨?_, ?_, fun _ => rfl, ?_, ?_⟩
  · rw [Modulos.procesar_ON_eq sample _ s hws, hn, if_pos ⟨h1, h2⟩]
    interval_cases n <;>
      simp [Modulos.procesar_STATUS_eq, Modulos.mostrar_eq, List.set] <;>
        decide
  · rw [Modulos.procesar_OFF_eq sample _ s hws, hn, if_pos ⟨h1, h2⟩]
    interval_cases n <;>
      simp [Modulos.procesar_STATUS_eq, Modulos.mostrar_eq, List.set] <;>
        decide
  · interval_cases n <;>
      simp [Api.TurnModuleOn, Api.statusBody, List.range_succ, List.set]
  · interval_cases n <;>
      simp [Api.TurnModuleOff, Api.statusBody, List.range_succ, List.set]

/-- C4 (witness): the concrete instance n = 2 from the all-off state. -/
theorem c4_on_off_then_status_witness :
    (Modulos.procesarComando 0
        (Modulos.procesarComando 0 [false, false, false]
          ('O' :: 'N' :: ':' :: ['2'])).1
        ['S', 'T', 'A', 'T', 'U', 'S']).2.getD (2 : Int).toNat (Ev.line "") =
      Ev.line ("Módulo " ++ toString (2 : Int) ++ ": ON") :=
  (c4_on_off_then_status ['2'] 2 0 [false, false, false] [false, false, false]
    (by decide) (by decide) (by decide) (by decide) (by decide)
    (by decide)).1

/-- C6: pin polarity is inverted between the two sketches and each variant
preserves its own convention — for every valid channel, the LED sketch's
`ON:n` writes `HIGH` to the channel's pin and `OFF:n` writes `LOW`, while
the module sketch's `ON:m` writes `LOW` and `OFF:m` writes `HIGH`, and the
module sketch's tracked boolean state is `true` after on and `false` after
off regardless of the electrical inversion. -/
theorem c6_polarity (s t : List Char) (n m sample : Int) (estado : List Bool)
    (hws : noWS s = true) (hn : toInt s = n) (h1 : 1 ≤ n) (h2 : n ≤ 2)
    (hwt : noWS t = true) (hm : toInt t = m) (h3 : 1 ≤ m) (h4 : m ≤ 3) :
    Leds.procesarComando ('O' :: 'N' :: ':' :: s) =
      [Ev.write (Leds.pinLeds.getD (n - 1).toNat 0) HIGH,
       Ev.line ("LED " ++ toString n ++ " encendido")] ∧
    Leds.procesarComando ('O' :: 'F' :: 'F' :: ':' :: s) =
      [Ev.write (Leds.pinLeds.getD (n - 1).toNat 0) LOW,
       Ev.line ("LED " ++ toString n ++ " apagado")] ∧
    Modulos.procesarComando sample estado ('O' :: 'N' :: ':' :: t) =
      (estado.set (m - 1).toNat true,
       [Ev.write (Modulos.pinModulos.getD (m - 1).toNat 0) LOW,
        Ev.line ("Módulo " ++ toString m ++ " encendido")]) ∧
    Modulos.procesarComando sample estado ('O' :: 'F' :: 'F' :: ':' :: t) =
      (estado.set (m - 1).toNat false,
       [Ev.write (Modulos.pinModulos.getD (m - 1).toNat 0) HIGH,
        Ev.line ("Módulo " ++ toString m ++ " apagado")]) := by
  subst hn
  subst hm
  refine ⟨?_, ?_, ?_, ?_⟩
  · rw [Leds.procesarLeds_ON_eq s hws, if_pos ⟨h1, h2⟩]
  · rw [Leds.procesarLeds_OFF_eq s hws, if_pos ⟨h1, h2⟩]
  · rw [Modulos.procesar_ON_eq sample estado t hwt, if_pos ⟨h3, h4⟩]
  · rw [Modulos.procesar_OFF_eq sample estado t hwt, if_pos ⟨h3, h4⟩]

/-- C6 (witness): the concrete instance for LED 1 and module 1. -/
theorem c6_polarity_witness :
    Leds.procesarComando ('O' :: 'N' :: ':' :: ['1']) =
      [Ev.write (Leds.pinLeds.getD ((1 : Int) - 1).toNat 0) HIGH,
       Ev.line ("LED " ++ toString (1 : Int) ++ " encendido")] :=
  (c6_polarity ['1'] ['1'] 1 1 0 [false, false, false] (by decide) (by decide)
    (by decide) (by decide) (by decide) (by decide) (by decide)
    (by decide)).1

/-- C7: temperature conversion is a deterministic pure function of the raw
sample applying the linear TMP36 transform exactly, with no clamping: for
every sample s the module sketch computes `(s * 5/1023 - 0.5) * 100` and the
HTTP facade returns `Ok` with `(s * 3.3/1023 - 0.5) * 100`; at raw sample
614 with the 5 V / 1023 reference the voltage is within 0.01 of 3.0 V and
the reported temperature within 0.125 of 250 °C. -/
theorem c7_temperature :
    (∀ sample : Int, (Modulos.leerTemperatura sample).1 =
      ((sample : ℚ) * (5 / 1023) - 0.5) * 100) ∧
    (∀ (sample : Int) (eventName : Option String),
      Api.GetTemperature sample eventName =
        Api.ActionResult.ok (Api.TemperatureBody.mk
          (((sample : ℚ) * (3.3 / 1023) - 0.5) * 100) eventName)) ∧
    ((3 : ℚ) - 1 / 100 < (614 : ℚ) * (5 / 1023) ∧
      (614 : ℚ) * (5 / 1023) < 3 + 1 / 100) ∧
    ((250 : ℚ) - 1 / 8 < (Modulos.leerTemperatura 614).1 ∧
      (Modulos.leerTemperatura 614).1 < 250 + 1 / 8) := by
  refine ⟨fun _ => rfl, fun _ _ => rfl, ⟨by norm_num, by norm_num⟩, ?_, ?_⟩
  · norm_num [Modulos.leerTemperatura]
  · norm_num [Modulos.leerTemperatura]

/-- C8: every input line whose trimmed text matches none of the recognized
prefixes and tokens produces, in each sketch, a single reply line containing
the literal trimmed input, changes no module state, and writes no pin. -/
theorem c8_unrecognized (cmd : List Char) (sample : Int) (estado : List Bool)
    (h1 : startsWith ['O', 'N', ':'] (trim cmd) = false)
    (h2 : startsWith ['O', 'F', 'F', ':'] (trim cmd) = false)
    (h3 : startsWith ['W', 'A', 'I', 'T', ':'] (trim cmd) = false)
    (h4 : trim cmd ≠ ['S', 'T', 'A', 'T', 'U', 'S'])
    (h5 : trim cmd ≠ ['T', 'E', 'M', 'P']) :
    Modulos.procesarComando sample estado cmd =
      (estado, [Ev.line ("Comando no reconocido: " ++ String.mk (trim cmd))]) ∧
    Leds.procesarComando cmd =
      [Ev.line ("Comando no reconocido: " ++ String.mk (trim cmd))] := by
  constructor
  · simp only [Modulos.procesarComando, h1, h2, h3, h4, h5]
    simp
  · simp only [Leds.procesarComando, h1, h2, h3]
    simp

/-- C8 (witness): the concrete unknown command `FOO` — the single reply
contains the literal text `FOO` and the state is unchanged. -/
theorem c8_unrecognized_witness :
    Modulos.procesarComando 0 [false, false, false] ['F', 'O', 'O'] =
      ([false, false, false],
       [Ev.line ("Comando no reconocido: " ++
          String.mk (trim ['F', 'O', 'O']))]) :=
  (c8_unrecognized ['F', 'O', 'O'] 0 [false, false, false] (by decide)
    (by decide) (by decide) (by decide) (by decide)).1

/-- C9: no exception escapes any MeadowClient method — for every outcome of
the wrapped HTTP call that is a thrown exception or a non-2xx response,
`EncenderModulo`, `ApagarModulo` and `Esperar` return `false`,
`LeerTemperatura` and `ObtenerEstadoModulos` return `none`; and for every
content string whose deserialization throws (an `Except.error` parse
result), the latter two also return `none`. -/
theorem c9_no_exception_escapes (n m : Int) (o : Cliente.HttpOutcome)
    (pT : String → Except String Cliente.TemperatureResponse)
    (pS : String → Except String Cliente.ModuleStatusResponse)
    (hfail : Cliente.httpFailed o = true) :
    (Cliente.EncenderModulo n o).1 = false ∧
    (Cliente.ApagarModulo n o).1 = false ∧
    (Cliente.Esperar m o).1 = false ∧
    Cliente.LeerTemperatura pT o = none ∧
    Cliente.ObtenerEstadoModulos pS o = none ∧
    (∀ content e, pT content = Except.error e →
      Cliente.LeerTemperatura pT (Cliente.HttpOutcome.response true content) =
        none) ∧
    (∀ content e, pS content = Except.error e →
      Cliente.ObtenerEstadoModulos pS
        (Cliente.HttpOutcome.response true content) = none) := by
  have hT : ∀ content e, pT content = Except.error e →
      Cliente.LeerTemperatura pT (Cliente.HttpOutcome.response true content) =
        none := by
    intro content e he
    dsimp only [Cliente.LeerTemperatura]
    rw [he]
  have hS : ∀ content e, pS content = Except.error e →
      Cliente.ObtenerEstadoModulos pS
        (Cliente.HttpOutcome.response true content) = none := by
    intro content e he
    dsimp only [Cliente.ObtenerEstadoModulos]
    rw [he]
  cases o with
  | exn msg =>
      refine ⟨?_, ?_, ?_, rfl, rfl, hT, hS⟩
      · unfold Cliente.EncenderModulo
        split <;> rfl
      · unfold Cliente.ApagarModulo
        split <;> rfl
      · unfold Cliente.Esperar
        split <;> rfl
  | response ok content =>
      have hok : ok = false := by
        simpa [Cliente.httpFailed] using hfail
      subst hok
      refine ⟨?_, ?_, ?_, rfl, rfl, hT, hS⟩
      · unfold Cliente.EncenderModulo
        split <;> rfl
      · unfold Cliente.ApagarModulo
        split <;> rfl
      · unfold Cliente.Esperar
        split <;> rfl

/-- C9 (witness): the concrete instance at a non-2xx response with a
deserializer that always throws. -/
theorem c9_no_exception_escapes_witness :
    (Cliente.EncenderModulo 1
      (Cliente.HttpOutcome.response false "err")).1 = false :=
  (c9_no_exception_escapes 1 1 (Cliente.HttpOutcome.response false "err")
    (fun _ => Except.error "bad") (fun _ => Except.error "bad")
    (by decide)).1

end Claims
